import Mathlib

/-!
Verification of the Cognito synchronization lambdas
(src/lambda/postConfirmation.py, src/lambda/postAuthentication.py).

The two handlers are embedded as pure functions.  An invocation is
parameterised by the current database state, the current timestamp, and a
fault assignment saying which fallible external operation (pool creation,
`pool.getconn()`, each SQL statement, `conn.commit()`) raises during this
invocation.  The result records the value returned (or the exception
propagated), the committed database state, and how many pool connections
were checked out and returned.
-/

namespace CognitoSync

/-- The `userAttributes` dictionary of a Cognito trigger event; `.get` on a
missing key yields `none`. -/
structure UserAttributes where
  sub : Option String
  email : Option String
  preferred_username : Option String
deriving Repr, DecidableEq

/-- The `request` part of a Cognito trigger event. -/
structure Request where
  userAttributes : UserAttributes
deriving Repr, DecidableEq

/-- A Cognito trigger event as consumed by both handlers. -/
structure Event where
  userPoolId : Option String
  userName : Option String
  request : Request
deriving Repr, DecidableEq

/-- A row of the `users` table
(`users(user_id PK, email, nickname, status, created_at, updated_at, last_login)`). -/
structure UserRow where
  user_id : String
  email : Option String
  nickname : String
  status : String
  created_at : Nat
  updated_at : Nat
  last_login : Option Nat
deriving Repr, DecidableEq

/-- A row of the `user_profiles` table (the auto-generated serial
`profile_id` is omitted; uniqueness is on `user_id`). -/
structure ProfileRow where
  user_id : String
  created_at : Nat
  updated_at : Nat
deriving Repr, DecidableEq

/-- The database state touched by the two lambdas. -/
structure Db where
  users : List UserRow
  profiles : List ProfileRow
deriving Repr, DecidableEq

/-- Python exceptions that can arise in the embedded code. -/
inductive PyError where
  /-- `AttributeError`: calling `.split` on `None` (missing email). -/
  | attributeError
  /-- A psycopg2 error from the pool or the database. -/
  | dbError
deriving Repr, DecidableEq

/-- Which fallible external operations raise during one invocation, plus
whether the process-global `connection_pool` is already initialized. -/
structure Faults where
  poolInitialized : Bool
  poolInitFails : Bool
  getconnFails : Bool
  beginFails : Bool
  userUpsertFails : Bool
  profileInsertFails : Bool
  updateFails : Bool
  commitFails : Bool
deriving Repr, DecidableEq

deriving instance DecidableEq for Except

/-- Outcome of one handler invocation: the value returned to the trigger
(or the exception that escaped), the committed database, and the number of
pool connections checked out / returned during the invocation. -/
structure HandlerResult where
  ret : Except PyError Event
  db : Db
  acquired : Nat
  released : Nat
deriving Repr, DecidableEq

/-- Python `s.split('@')[0]`: the substring of `s` before the first `'@'`
(all of `s` when there is no `'@'`). -/
def localPart (s : String) : String :=
  ⟨s.data.takeWhile (fun c => c ≠ '@')⟩

/-- Line 69 of postConfirmation.py:
`nickname = user_attributes.get('preferred_username') or email.split('@')[0]`.
Python `or` takes the right operand on any falsy left operand (`None` or
`''`); `None.split` raises `AttributeError`. -/
def nicknameOf (pu : Option String) (email : Option String) : Except PyError String :=
  match pu with
  | some s =>
      if s = "" then
        match email with
        | some e => .ok (localPart e)
        | none => .error .attributeError
      else .ok s
  | none =>
      match email with
      | some e => .ok (localPart e)
      | none => .error .attributeError

/-- The `INSERT INTO users ... ON CONFLICT (user_id) DO UPDATE SET email =
EXCLUDED.email, nickname = EXCLUDED.nickname, updated_at =
CURRENT_TIMESTAMP` statement of postConfirmation.py. -/
def upsertUser (db : Db) (uid : String) (email : Option String)
    (nickname : String) (now : Nat) : Db :=
  if db.users.any (fun r => r.user_id = uid) then
    { db with users := db.users.map (fun r =>
        if r.user_id = uid then
          { r with email := email, nickname := nickname, updated_at := now }
        else r) }
  else
    { db with users :=
        db.users ++ [⟨uid, email, nickname, "active", now, now, none⟩] }

/-- The `INSERT INTO user_profiles ... ON CONFLICT (user_id) DO NOTHING`
statement of postConfirmation.py. -/
def insertProfile (db : Db) (uid : String) (now : Nat) : Db :=
  if db.profiles.any (fun p => p.user_id = uid) then db
  else { db with profiles := db.profiles ++ [⟨uid, now, now⟩] }

/-- The `UPDATE users SET last_login = CURRENT_TIMESTAMP WHERE user_id = %s
RETURNING user_id, last_login` statement of postAuthentication.py; the
boolean records whether a row matched (`cursor.fetchone()` non-None). -/
def updateLastLogin (db : Db) (uid : String) (now : Nat) : Db × Bool :=
  if db.users.any (fun r => r.user_id = uid) then
    ({ db with users := db.users.map (fun r =>
        if r.user_id = uid then { r with last_login := some now } else r) },
      true)
  else (db, false)

/-- Shallow embedding of `handler` in src/lambda/postConfirmation.py.

Order of events, as in the source: attribute extraction (line 69 can raise
`AttributeError` before the `try` block), `get_connection_pool()` (outside
the `try`; creating the pool connects eagerly and can raise), then the
`try` block: `getconn`, `BEGIN`, the user upsert, the profile insert,
`commit`.  Any exception inside the `try` is caught, the transaction rolled
back (so the database is unchanged) and the event returned; the `finally`
block returns the connection to the pool whenever one was checked out.
Inserting a `NULL` primary key (missing `sub`) violates the `users` PK
constraint, so the upsert raises in that case. -/
def postConfirmationHandler (ev : Event) (now : Nat) (f : Faults) (db : Db) :
    HandlerResult :=
  let ua := ev.request.userAttributes
  match nicknameOf ua.preferred_username ua.email with
  | .error e => { ret := .error e, db := db, acquired := 0, released := 0 }
  | .ok nickname =>
    if !f.poolInitialized && f.poolInitFails then
      { ret := .error .dbError, db := db, acquired := 0, released := 0 }
    else if f.getconnFails then
      { ret := .ok ev, db := db, acquired := 0, released := 0 }
    else if f.beginFails then
      { ret := .ok ev, db := db, acquired := 1, released := 1 }
    else
      match ua.sub with
      | none => { ret := .ok ev, db := db, acquired := 1, released := 1 }
      | some uid =>
        if f.userUpsertFails then
          { ret := .ok ev, db := db, acquired := 1, released := 1 }
        else
          let db1 := upsertUser db uid ua.email nickname now
          if f.profileInsertFails then
            { ret := .ok ev, db := db, acquired := 1, released := 1 }
          else
            let db2 := insertProfile db1 uid now
            if f.commitFails then
              { ret := .ok ev, db := db, acquired := 1, released := 1 }
            else
              { ret := .ok ev, db := db2, acquired := 1, released := 1 }

/-- Shallow embedding of `handler` in src/lambda/postAuthentication.py.

As in the source: `get_connection_pool()` runs outside the `try`; inside
the `try`: `getconn`, the `UPDATE` (a missing `sub` makes the `WHERE
user_id = NULL` clause match no row rather than raise), `commit`.  Any
exception inside the `try` is caught and the event returned; the `finally`
block returns the connection whenever one was checked out.  An uncommitted
update is not visible, so on any failure the database is unchanged. -/
def postAuthenticationHandler (ev : Event) (now : Nat) (f : Faults) (db : Db) :
    HandlerResult :=
  let ua := ev.request.userAttributes
  if !f.poolInitialized && f.poolInitFails then
    { ret := .error .dbError, db := db, acquired := 0, released := 0 }
  else if f.getconnFails then
    { ret := .ok ev, db := db, acquired := 0, released := 0 }
  else if f.updateFails then
    { ret := .ok ev, db := db, acquired := 1, released := 1 }
  else
    let upd := match ua.sub with
      | none => (db, false)
      | some uid => updateLastLogin db uid now
    if f.commitFails then
      { ret := .ok ev, db := db, acquired := 1, released := 1 }
    else
      { ret := .ok ev, db := upd.fst, acquired := 1, released := 1 }

/-- A fault assignment where the pool exists and nothing fails. -/
def noFaults : Faults :=
  ⟨true, false, false, false, false, false, false, false⟩

/-- The empty database. -/
def emptyDb : Db := ⟨[], []⟩

/-- An event with `sub` and `email` but no `preferred_username`. -/
def evBob : Event :=
  ⟨some "pool1", some "bob", ⟨⟨some "u1", some "bob@x.com", none⟩⟩⟩

/-- An event with `sub` but neither `email` nor `preferred_username`. -/
def evNoEmail : Event := ⟨some "pool1", some "carol", ⟨⟨some "u3", none, none⟩⟩⟩

/-- An event whose `preferred_username` is present but empty. -/
def evEmptyPU : Event :=
  ⟨some "pool1", some "alice", ⟨⟨some "u2", some "alice@example.com", some ""⟩⟩⟩

/-- A fault assignment where the pool exists but the user upsert and the
commit raise. -/
def dbFailFaults : Faults :=
  ⟨true, false, false, false, true, false, false, true⟩

/-- A fault assignment for a cold start whose first-time pool creation
(the eager initial connection) raises. -/
def coldFail : Faults :=
  ⟨false, true, false, false, false, false, false, false⟩

/-- A database holding one user row for "u1" and one profile row. -/
def oneUserDb : Db :=
  ⟨[⟨"u1", some "old@x.com", "oldnick", "active", 1, 2, some 3⟩],
    [⟨"u1", 1, 1⟩]⟩

example :
    (postConfirmationHandler evBob 7 noFaults emptyDb).db =
      ⟨[⟨"u1", some "bob@x.com", "bob", "active", 7, 7, none⟩],
        [⟨"u1", 7, 7⟩]⟩ := by decide

example :
    (postConfirmationHandler evBob 7 noFaults emptyDb).ret = .ok evBob := by
  decide

/-- The profile insert never touches the `users` table. -/
theorem insertProfile_users (db : Db) (uid : String) (now : Nat) :
    (insertProfile db uid now).users = db.users := by
  unfold insertProfile
  split <;> rfl

/-- The user upsert never touches the `user_profiles` table. -/
theorem upsertUser_profiles (db : Db) (uid : String) (email : Option String)
    (nickname : String) (now : Nat) :
    (upsertUser db uid email nickname now).profiles = db.profiles := by
  unfold upsertUser
  split <;> rfl

/-- C9: in every invocation of either handler, under every fault
assignment, the number of connections returned to the pool equals the
number checked out, and at most one connection is checked out. -/
theorem C9_theorem (ev : Event) (now : Nat) (f : Faults) (db : Db) :
    ((postConfirmationHandler ev now f db).released =
        (postConfirmationHandler ev now f db).acquired ∧
      (postConfirmationHandler ev now f db).acquired ≤ 1) ∧
    ((postAuthenticationHandler ev now f db).released =
        (postAuthenticationHandler ev now f db).acquired ∧
      (postAuthenticationHandler ev now f db).acquired ≤ 1) := by
  simp only [postConfirmationHandler, postAuthenticationHandler]
  refine ⟨⟨?_, ?_⟩, ⟨?_, ?_⟩⟩ <;> (repeat' split) <;> simp

/-- C1 counterexample: for the event `evNoEmail` (no `email`, no
`preferred_username`) the handler does not return the event — the nickname
derivation at line 69 raises `AttributeError` before the `try` block, and
the exception escapes the handler, even though no fault is injected. -/
theorem C1_counterexample :
    (postConfirmationHandler evNoEmail 0 noFaults emptyDb).ret =
        .error .attributeError ∧
      (postConfirmationHandler evNoEmail 0 noFaults emptyDb).ret ≠
        .ok evNoEmail := by
  decide

/-- C1 (amended): for every identity event whose nickname derivation
succeeds (`preferred_username` non-empty, or `email` present), provided the
connection pool is already initialized or its first-time creation succeeds,
the handler returns the original event unmodified and raises no exception —
in particular under every database fault assignment. -/
theorem C1_theorem (ev : Event) (now : Nat) (f : Faults) (db : Db)
    (hnick : ∃ n,
      nicknameOf ev.request.userAttributes.preferred_username
        ev.request.userAttributes.email = Except.ok n)
    (hpool : f.poolInitialized = true ∨ f.poolInitFails = false) :
    (postConfirmationHandler ev now f db).ret = .ok ev := by
  obtain ⟨n, hn⟩ := hnick
  have hp : (!f.poolInitialized && f.poolInitFails) = false := by
    rcases hpool with h | h <;> simp [h]
  simp only [postConfirmationHandler, hn, hp, Bool.false_eq_true, if_false]
  (repeat' split) <;> rfl

/-- Witness for C1: a concrete event with email, under faults that fail
both the user upsert and the commit, still yields the original event. -/
theorem C1_witness :
    (∃ n,
      nicknameOf evBob.request.userAttributes.preferred_username
        evBob.request.userAttributes.email = Except.ok n) ∧
    (dbFailFaults.poolInitialized = true ∨ dbFailFaults.poolInitFails = false) ∧
    (postConfirmationHandler evBob 0 dbFailFaults emptyDb).ret = .ok evBob :=
  ⟨⟨"bob", rfl⟩, Or.inl rfl,
    C1_theorem evBob 0 dbFailFaults emptyDb ⟨"bob", rfl⟩ (Or.inl rfl)⟩

/-- C2: if the nickname derivation and the pool phase succeed and a
database fault hits connection checkout, the user upsert, or the profile
insert, then the committed database is exactly the initial one (no partial
state: both tables unchanged) and the original event is still returned. -/
theorem C2_theorem (ev : Event) (now : Nat) (f : Faults) (db : Db)
    (hnick : ∃ n,
      nicknameOf ev.request.userAttributes.preferred_username
        ev.request.userAttributes.email = Except.ok n)
    (hpool : f.poolInitialized = true ∨ f.poolInitFails = false)
    (hfail : f.getconnFails = true ∨ f.userUpsertFails = true ∨
      f.profileInsertFails = true) :
    (postConfirmationHandler ev now f db).db = db ∧
      (postConfirmationHandler ev now f db).ret = .ok ev := by
  obtain ⟨n, hn⟩ := hnick
  have hp : (!f.poolInitialized && f.poolInitFails) = false := by
    rcases hpool with h | h <;> simp [h]
  simp only [postConfirmationHandler, hn, hp, Bool.false_eq_true, if_false]
  rcases hfail with h | h | h <;>
    simp only [h, if_true] <;> (repeat' split) <;> simp_all

/-- Witness for C2: with the user upsert failing on a concrete event over
a nonempty database, both tables are untouched and the event returned. -/
theorem C2_witness :
    (∃ n,
      nicknameOf evBob.request.userAttributes.preferred_username
        evBob.request.userAttributes.email = Except.ok n) ∧
    (dbFailFaults.poolInitialized = true ∨ dbFailFaults.poolInitFails = false) ∧
    (dbFailFaults.getconnFails = true ∨ dbFailFaults.userUpsertFails = true ∨
      dbFailFaults.profileInsertFails = true) ∧
    ((postConfirmationHandler evBob 9 dbFailFaults oneUserDb).db = oneUserDb ∧
      (postConfirmationHandler evBob 9 dbFailFaults oneUserDb).ret = .ok evBob) :=
  ⟨⟨"bob", rfl⟩, Or.inl rfl, Or.inr (Or.inl rfl),
    C2_theorem evBob 9 dbFailFaults oneUserDb ⟨"bob", rfl⟩ (Or.inl rfl)
      (Or.inr (Or.inl rfl))⟩

/-- C6 counterexample: on a cold start whose first-time pool creation
fails (connect timeout or database authentication failure while the pool
eagerly opens its initial connection), `get_connection_pool()` runs
outside the `try` block, so the exception escapes the LoginSync handler
instead of the original event being returned. -/
theorem C6_counterexample :
    (postAuthenticationHandler evBob 5 coldFail emptyDb).ret =
        .error .dbError ∧
      (postAuthenticationHandler evBob 5 coldFail emptyDb).ret ≠
        .ok evBob := by
  decide

/-- C6 (amended): for every identity event, provided the connection pool
is already initialized or its first-time creation succeeds, the LoginSync
handler catches every exception (connection checkout, the update
statement, the commit) and returns the original event unmodified. -/
theorem C6_theorem (ev : Event) (now : Nat) (f : Faults) (db : Db)
    (hpool : f.poolInitialized = true ∨ f.poolInitFails = false) :
    (postAuthenticationHandler ev now f db).ret = .ok ev := by
  have hp : (!f.poolInitialized && f.poolInitFails) = false := by
    rcases hpool with h | h <;> simp [h]
  simp only [postAuthenticationHandler, hp, Bool.false_eq_true, if_false]
  (repeat' split) <;> rfl

/-- Witness for C6: a concrete invocation with connection checkout
failing (pool exhausted) still returns the original event. -/
theorem C6_witness :
    (Faults.poolInitialized
          ⟨true, false, true, false, false, false, false, false⟩ = true ∨
        Faults.poolInitFails
          ⟨true, false, true, false, false, false, false, false⟩ = false) ∧
    (postAuthenticationHandler evBob 5
        ⟨true, false, true, false, false, false, false, false⟩ emptyDb).ret =
      .ok evBob :=
  ⟨Or.inl rfl,
    C6_theorem evBob 5 ⟨true, false, true, false, false, false, false, false⟩
      emptyDb (Or.inl rfl)⟩

/-- C7: a login event whose subject id matches no user row returns the
original event without raising and leaves the whole database unchanged. -/
theorem C7_theorem (ev : Event) (now : Nat) (db : Db) (uid : String)
    (hsub : ev.request.userAttributes.sub = some uid)
    (hnone : db.users.any (fun r => r.user_id = uid) = false) :
    (postAuthenticationHandler ev now noFaults db).ret = .ok ev ∧
      (postAuthenticationHandler ev now noFaults db).db = db := by
  simp only [postAuthenticationHandler, updateLastLogin, noFaults, hsub, hnone,
    Bool.false_eq_true, if_false, Bool.and_false]
  simp

/-- Witness for C7: a login for the unknown subject "u1" over the empty
database returns the event and modifies nothing. -/
theorem C7_witness :
    evBob.request.userAttributes.sub = some "u1" ∧
    emptyDb.users.any (fun r => r.user_id = "u1") = false ∧
    ((postAuthenticationHandler evBob 4 noFaults emptyDb).ret = .ok evBob ∧
      (postAuthenticationHandler evBob 4 noFaults emptyDb).db = emptyDb) :=
  ⟨rfl, rfl, C7_theorem evBob 4 emptyDb "u1" rfl rfl⟩

/-- C3: on a successful ConfirmationSync invocation whose subject id
already has a user row, that row gets the event's email, the derived
nickname and `updated_at = now`, while its `user_id`, `status`,
`created_at` and `last_login` — and every other user row — are unchanged. -/
theorem C3_theorem (ev : Event) (now : Nat) (db : Db) (uid n : String)
    (hsub : ev.request.userAttributes.sub = some uid)
    (hnick : nicknameOf ev.request.userAttributes.preferred_username
      ev.request.userAttributes.email = Except.ok n)
    (hex : db.users.any (fun r => r.user_id = uid) = true) :
    (postConfirmationHandler ev now noFaults db).db.users =
      db.users.map (fun r =>
        if r.user_id = uid then
          { r with
            email := ev.request.userAttributes.email, nickname := n,
            updated_at := now }
        else r) := by
  simp [postConfirmationHandler, hnick, hsub, noFaults, insertProfile_users,
    upsertUser, hex]

/-- Witness for C3: refreshing the existing "u1" row of `oneUserDb` keeps
its `status`, `created_at` and `last_login`. -/
theorem C3_witness :
    evBob.request.userAttributes.sub = some "u1" ∧
    nicknameOf evBob.request.userAttributes.preferred_username
      evBob.request.userAttributes.email = Except.ok "bob" ∧
    oneUserDb.users.any (fun r => r.user_id = "u1") = true ∧
    (postConfirmationHandler evBob 9 noFaults oneUserDb).db.users =
      oneUserDb.users.map (fun r =>
        if r.user_id = "u1" then
          { r with
            email := evBob.request.userAttributes.email,
            nickname := "bob", updated_at := 9 }
        else r) :=
  ⟨rfl, rfl, rfl, C3_theorem evBob 9 oneUserDb "u1" "bob" rfl rfl rfl⟩

/-- Any profile row present before the profile insert is still present,
unmodified, afterwards. -/
theorem insertProfile_mem (db : Db) (u : String) (now : Nat) (p : ProfileRow)
    (hp : p ∈ db.profiles) : p ∈ (insertProfile db u now).profiles := by
  unfold insertProfile
  split
  · exact hp
  · exact List.mem_append_left _ hp

/-- The profile insert preserves "at most one profile row per subject". -/
theorem insertProfile_countP (db : Db) (u uid : String) (now : Nat)
    (h : db.profiles.countP (fun p => p.user_id = uid) ≤ 1) :
    (insertProfile db u now).profiles.countP (fun p => p.user_id = uid) ≤ 1 := by
  unfold insertProfile
  split
  · exact h
  · rename_i hany
    rw [List.countP_append]
    by_cases hu : u = uid
    · subst hu
      have h0 : db.profiles.countP (fun p => decide (p.user_id = u)) = 0 := by
        rw [List.countP_eq_zero]
        intro q hq hc
        exact hany (List.any_eq_true.mpr ⟨q, hq, hc⟩)
      simp [h0, List.countP_cons]
    · have h1 : ([(⟨u, now, now⟩ : ProfileRow)].countP
          (fun p => decide (p.user_id = uid))) = 0 := by
        simp [List.countP_cons, hu]
      omega

/-- The committed database of a ConfirmationSync invocation: either it is
unchanged (any failure path), or it is the result of the user upsert
followed by the profile insert for the event's subject id. -/
theorem pc_db_cases (ev : Event) (now : Nat) (f : Faults) (db : Db) :
    (postConfirmationHandler ev now f db).db = db ∨
    ∃ uid n, ev.request.userAttributes.sub = some uid ∧
      (postConfirmationHandler ev now f db).db =
        insertProfile (upsertUser db uid ev.request.userAttributes.email n now)
          uid now := by
  simp only [postConfirmationHandler]
  split
  · left; rfl
  · rename_i n hn
    split
    · left; rfl
    split
    · left; rfl
    split
    · left; rfl
    split
    · left; rfl
    · rename_i uid huid
      split
      · left; rfl
      split
      · left; rfl
      split
      · left; rfl
      · right; exact ⟨uid, n, huid, rfl⟩

/-- C4: under every fault assignment, a ConfirmationSync invocation never
takes a subject id from at most one profile row to more than one, and
every pre-existing profile row survives unmodified (it is never
overwritten). -/
theorem C4_theorem (ev : Event) (now : Nat) (f : Faults) (db : Db)
    (uid : String)
    (hcount : db.profiles.countP (fun p => p.user_id = uid) ≤ 1) :
    (postConfirmationHandler ev now f db).db.profiles.countP
        (fun p => p.user_id = uid) ≤ 1 ∧
      ∀ p ∈ db.profiles,
        p ∈ (postConfirmationHandler ev now f db).db.profiles := by
  rcases pc_db_cases ev now f db with h | ⟨u, n, hsub, h⟩
  · rw [h]
    exact ⟨hcount, fun p hp => hp⟩
  · rw [h]
    constructor
    · apply insertProfile_countP
      rw [upsertUser_profiles]
      exact hcount
    · intro p hp
      apply insertProfile_mem
      rw [upsertUser_profiles]
      exact hp

/-- Witness for C4: re-running confirmation for "u1" against `oneUserDb`,
which already holds a "u1" profile, leaves exactly one "u1" profile row
and keeps the original row. -/
theorem C4_witness :
    oneUserDb.profiles.countP (fun p => p.user_id = "u1") ≤ 1 ∧
    ((postConfirmationHandler evBob 9 noFaults oneUserDb).db.profiles.countP
        (fun p => p.user_id = "u1") ≤ 1 ∧
      ∀ p ∈ oneUserDb.profiles,
        p ∈ (postConfirmationHandler evBob 9 noFaults oneUserDb).db.profiles) :=
  ⟨by decide, C4_theorem evBob 9 noFaults oneUserDb "u1" (by decide)⟩

/-- C5 counterexample: for `evEmptyPU`, whose `preferred_username` is
present (the empty string), the stored nickname is "alice" — the email's
local part — and not the present `preferred_username` value. -/
theorem C5_counterexample :
    evEmptyPU.request.userAttributes.preferred_username = some "" ∧
      (postConfirmationHandler evEmptyPU 3 noFaults emptyDb).db.users.map
          (fun r => r.nickname) = ["alice"] ∧
      ("alice" : String) ≠ "" := by
  decide

/-- C5 (amended): on a successful ConfirmationSync invocation with email
present and a fresh subject id, a missing `preferred_username` yields the
email's local part as nickname, and a present non-empty
`preferred_username` is stored as the nickname. -/
theorem C5_theorem (ev : Event) (now : Nat) (db : Db) (uid e : String)
    (hsub : ev.request.userAttributes.sub = some uid)
    (hmail : ev.request.userAttributes.email = some e)
    (hnew : db.users.any (fun r => r.user_id = uid) = false) :
    (ev.request.userAttributes.preferred_username = none →
      (postConfirmationHandler ev now noFaults db).db.users =
        db.users ++ [⟨uid, some e, localPart e, "active", now, now, none⟩]) ∧
    (∀ s, ev.request.userAttributes.preferred_username = some s → s ≠ "" →
      (postConfirmationHandler ev now noFaults db).db.users =
        db.users ++ [⟨uid, some e, s, "active", now, now, none⟩]) := by
  constructor
  · intro hpu
    simp [postConfirmationHandler, nicknameOf, hpu, hmail, hsub, noFaults,
      insertProfile_users, upsertUser, hnew]
  · intro s hpu hs
    simp [postConfirmationHandler, nicknameOf, hpu, hmail, hsub, hs, noFaults,
      insertProfile_users, upsertUser, hnew]

/-- Witness for C5: `evBob` has no `preferred_username`, and the inserted
"u1" row's nickname is `localPart "bob@x.com" = "bob"`. -/
theorem C5_witness :
    evBob.request.userAttributes.sub = some "u1" ∧
    evBob.request.userAttributes.email = some "bob@x.com" ∧
    emptyDb.users.any (fun r => r.user_id = "u1") = false ∧
    ((evBob.request.userAttributes.preferred_username = none →
        (postConfirmationHandler evBob 6 noFaults emptyDb).db.users =
          emptyDb.users ++
            [⟨"u1", some "bob@x.com", localPart "bob@x.com", "active", 6, 6,
              none⟩]) ∧
      (∀ s, evBob.request.userAttributes.preferred_username = some s →
        s ≠ "" →
        (postConfirmationHandler evBob 6 noFaults emptyDb).db.users =
          emptyDb.users ++
            [⟨"u1", some "bob@x.com", s, "active", 6, 6, none⟩])) :=
  ⟨rfl, rfl, rfl, C5_theorem evBob 6 emptyDb "u1" "bob@x.com" rfl rfl rfl⟩

/-- C8: on a successful LoginSync invocation whose subject id has a user
row, that row gets `last_login = now` and keeps every other field, every
other user row is unchanged, the profile table is unchanged, and the
original event is returned. -/
theorem C8_theorem (ev : Event) (now : Nat) (db : Db) (uid : String)
    (hsub : ev.request.userAttributes.sub = some uid)
    (hex : db.users.any (fun r => r.user_id = uid) = true) :
    (postAuthenticationHandler ev now noFaults db).db.users =
        db.users.map (fun r =>
          if r.user_id = uid then { r with last_login := some now } else r) ∧
      (postAuthenticationHandler ev now noFaults db).db.profiles =
        db.profiles ∧
      (postAuthenticationHandler ev now noFaults db).ret = .ok ev := by
  simp [postAuthenticationHandler, noFaults, hsub, updateLastLogin, hex]

/-- Witness for C8: logging in as "u1" over `oneUserDb` refreshes only
`last_login`; email, nickname, status, `created_at`, `updated_at` and the
profile table are untouched. -/
theorem C8_witness :
    evBob.request.userAttributes.sub = some "u1" ∧
    oneUserDb.users.any (fun r => r.user_id = "u1") = true ∧
    ((postAuthenticationHandler evBob 11 noFaults oneUserDb).db.users =
        oneUserDb.users.map (fun r =>
          if r.user_id = "u1" then { r with last_login := some 11 } else r) ∧
      (postAuthenticationHandler evBob 11 noFaults oneUserDb).db.profiles =
        oneUserDb.profiles ∧
      (postAuthenticationHandler evBob 11 noFaults oneUserDb).ret =
        .ok evBob) :=
  ⟨rfl, rfl, C8_theorem evBob 11 oneUserDb "u1" rfl rfl⟩

/-- C10: on a successful ConfirmationSync invocation with a fresh subject
id, email present and `preferred_username` present but empty, the stored
nickname is the email's local part, not the empty string. -/
theorem C10_theorem (ev : Event) (now : Nat) (db : Db) (uid e : String)
    (hsub : ev.request.userAttributes.sub = some uid)
    (hpu : ev.request.userAttributes.preferred_username = some "")
    (hmail : ev.request.userAttributes.email = some e)
    (hnew : db.users.any (fun r => r.user_id = uid) = false) :
    (postConfirmationHandler ev now noFaults db).db.users =
      db.users ++ [⟨uid, some e, localPart e, "active", now, now, none⟩] := by
  simp [postConfirmationHandler, nicknameOf, hpu, hmail, hsub, noFaults,
    insertProfile_users, upsertUser, hnew]

/-- Witness for C10: `evEmptyPU` has `preferred_username = some ""` and
email "alice@example.com"; the stored nickname is "alice". -/
theorem C10_witness :
    evEmptyPU.request.userAttributes.sub = some "u2" ∧
    evEmptyPU.request.userAttributes.preferred_username = some "" ∧
    evEmptyPU.request.userAttributes.email = some "alice@example.com" ∧
    emptyDb.users.any (fun r => r.user_id = "u2") = false ∧
    (postConfirmationHandler evEmptyPU 3 noFaults emptyDb).db.users =
      emptyDb.users ++
        [⟨"u2", some "alice@example.com", localPart "alice@example.com",
          "active", 3, 3, none⟩] :=
  ⟨rfl, rfl, rfl, rfl,
    C10_theorem evEmptyPU 3 emptyDb "u2" "alice@example.com" rfl rfl rfl rfl⟩

end CognitoSync
